import Mathlib

/-!
Shallow embedding of the vibertime core: the bedtime scheduler
(src/core/NotificationManager.ts), the activity state machine and snooze
guards (src/core/ActivityTracker.ts), and the edit-provenance classifier
(MetricsEngine).  Timestamps are milliseconds as mathematical integers;
the JS local calendar is modelled with a fixed UTC offset and no DST, so
a calendar day is exactly 86400000 ms.  Lean integer division `/` and
`%` on Int are Euclidean, which for positive divisors agrees with the
floor semantics of JS Date arithmetic and Math.floor.
-/

def msPerMinute : Int := 60000

def msPerHour : Int := 3600000

def msPerDay : Int := 86400000

/-- JS Date.prototype.getHours in the fixed-offset no-DST calendar. -/
def dateGetHours (t : Int) : Int := (t / msPerHour) % 24

/-- Index of the calendar day containing timestamp t. -/
def dateDayIndex (t : Int) : Int := t / msPerDay

/-- JS date.setHours(h, m, 0, 0): keep the calendar day of t, set the
time of day to h hours and m minutes. -/
def dateSetHoursMinutes (t h m : Int) : Int :=
  dateDayIndex t * msPerDay + h * msPerHour + m * msPerMinute

/-- Slot-machine sub-record of DailyStats (StorageManager).  Carried
only so that resetForNewDay can be embedded field-for-field. -/
structure SlotState where
  runsRemaining : Int
  currentEnergy : Int
  currentScore : Int
  dailyHighScore : Int
  bestAnalysis : Option Unit
  deriving Repr, DecidableEq

/-- DailyStats (StorageManager): the per-session-day ledger shared by
ActivityTracker and MetricsEngine.  Counters are JS numbers holding
integers; Int keeps subtraction (the clipboard correction) faithful. -/
structure DailyStats where
  activeSeconds : Int
  typingSeconds : Int
  reviewingSeconds : Int
  humanTypedLines : Int
  humanRefactoredLines : Int
  aiGeneratedLines : Int
  aiEditedLines : Int
  humanChars : Int
  aiChars : Int
  refactorChars : Int
  slotState : SlotState
  deriving Repr, DecidableEq

/-- An all-zero DailyStats record, used to instantiate examples. -/
def statsZero : DailyStats :=
  { activeSeconds := 0, typingSeconds := 0, reviewingSeconds := 0
    humanTypedLines := 0, humanRefactoredLines := 0
    aiGeneratedLines := 0, aiEditedLines := 0
    humanChars := 0, aiChars := 0, refactorChars := 0
    slotState := { runsRemaining := 0, currentEnergy := 0, currentScore := 0
                   dailyHighScore := 0, bestAnalysis := none } }

/-- Configuration read by the scheduler (ConfigManager).  bedH/bedM are
the parse of the HH:MM bedtime string, performed upstream. -/
structure SchedulerConfig where
  bedH : Int
  bedM : Int
  dayStartHour : Int
  softNudgeMinutes : Int
  autoSnoozeMinutes : Int
  deriving Repr, DecidableEq

/-- ConfigManager.idleTimeoutSeconds: the stored setting with default 30. -/
def idleTimeoutSeconds (configured : Option Int) : Int := configured.getD 30

/-- Transient NotificationManager state: _snoozedUntil, _softNudgeFired,
_isHardStopActive. -/
structure SchedulerState where
  snoozedUntil : Int
  softNudgeFired : Bool
  hardStopActive : Bool
  deriving Repr, DecidableEq

/-- NotificationManager.snooze: _snoozedUntil = now + minutes * 60000. -/
def snooze (minutes now : Int) (st : SchedulerState) : SchedulerState :=
  { st with snoozedUntil := now + minutes * msPerMinute }

/-- NotificationManager.reset: clears _snoozedUntil and _softNudgeFired. -/
def schedulerReset (st : SchedulerState) : SchedulerState :=
  { st with snoozedUntil := 0, softNudgeFired := false }

/-- NotificationManager.getTargetBedtimeTimestamp.  If _snoozedUntil > 0
it is returned directly; otherwise the session date is now, pulled back
one day when the current hour is before dayStartHour, the time of day is
set to the configured bedtime, and one day is added when the bedtime
hour is numerically below dayStartHour. -/
def getTargetBedtimeTimestamp (cfg : SchedulerConfig) (snoozedUntil now : Int) : Int :=
  if 0 < snoozedUntil then snoozedUntil
  else
    let sessionDate := if dateGetHours now < cfg.dayStartHour then now - msPerDay else now
    let targetDate := dateSetHoursMinutes sessionDate cfg.bedH cfg.bedM
    if cfg.bedH < cfg.dayStartHour then targetDate + msPerDay else targetDate

/-- NotificationManager.triggerHardStop: when _isHardStopActive the call
returns without presenting; otherwise the lock is taken and the blocking
modal is presented (the Bool is true exactly when the modal appears). -/
def triggerHardStop (st : SchedulerState) : SchedulerState × Bool :=
  if st.hardStopActive then (st, false)
  else ({ st with hardStopActive := true }, true)

/-- NotificationManager.checkTime, one scheduler tick at time now.  The
hard-stop branch runs when diffMs is in (-60000, -2000] AND additionally
|diffMs + 2000| < 1500, and returns early; otherwise the soft-nudge flag
logic runs.  The Bool reports whether the blocking modal was presented. -/
def checkTime (cfg : SchedulerConfig) (now : Int) (st : SchedulerState) :
    SchedulerState × Bool :=
  let targetMs := getTargetBedtimeTimestamp cfg st.snoozedUntil now
  let diffMs := targetMs - now
  if diffMs ≤ -2000 ∧ diffMs > -60000 ∧ |diffMs + 2000| < 1500 then
    triggerHardStop st
  else
    let nudgeMs := cfg.softNudgeMinutes * 60 * 1000
    let st1 :=
      if |diffMs - nudgeMs| < 1500 ∧ st.softNudgeFired = false then
        { st with softNudgeFired := true }
      else st
    let st2 :=
      if diffMs > nudgeMs + 60000 then { st1 with softNudgeFired := false }
      else st1
    (st2, false)

/-- The four options of the hard-stop modal dialog. -/
inductive HardStopChoice where
  | snooze30
  | snooze60
  | snooze120
  | dismissed
  deriving Repr, DecidableEq

/-- Resolution of the hard-stop dialog (the .then callback in
triggerHardStop): the _isHardStopActive lock is released, then the
selected snooze is applied, dismissal meaning the configured
auto-snooze. -/
def hardStopResolve (cfg : SchedulerConfig) (choice : HardStopChoice)
    (now : Int) (st : SchedulerState) : SchedulerState :=
  let st0 : SchedulerState := { st with hardStopActive := false }
  match choice with
  | .snooze30 => snooze 30 now st0
  | .snooze60 => snooze 60 now st0
  | .snooze120 => snooze 120 now st0
  | .dismissed => snooze cfg.autoSnoozeMinutes now st0

/-- A sample configuration: bedtime 22:00, day start 4, nudge 30,
auto-snooze 60. -/
def exampleConfig : SchedulerConfig :=
  { bedH := 22, bedM := 0, dayStartHour := 4
    softNudgeMinutes := 30, autoSnoozeMinutes := 60 }

/-- Scheduler state with a pending snooze deadline d and clear flags. -/
def initSchedulerState (d : Int) : SchedulerState :=
  { snoozedUntil := d, softNudgeFired := false, hardStopActive := false }

/-- JS truthiness of the nullable _zombieStartTimestamp field: null and
the timestamp 0 are both falsy. -/
def jsTruthyTimestamp : Option Int → Bool
  | none => false
  | some t => decide (t ≠ 0)

/-- ActivityTracker.ZOMBIE_REVIVAL_WINDOW_MS. -/
def zombieRevivalWindowMs : Int := 300000

/-- One 1-second tick of ActivityTracker.startTracking.  isActive is
_isFocused AND msSinceInput < 30000 (the timeout is hardcoded in the
source; ConfigManager.idleTimeoutSeconds is not consulted).  An active
tick clears the zombie marker and credits activeSeconds plus exactly one
of typingSeconds (msSinceInput < 2000) or reviewingSeconds; an inactive
tick records the time of death when the marker is falsy. -/
def activityTick (isFocused : Bool) (msSinceInput now : Int)
    (zombie : Option Int) (s : DailyStats) : DailyStats × Option Int :=
  if isFocused ∧ msSinceInput < 30000 then
    (if msSinceInput < 2000 then
      { s with activeSeconds := s.activeSeconds + 1
               typingSeconds := s.typingSeconds + 1 }
     else
      { s with activeSeconds := s.activeSeconds + 1
               reviewingSeconds := s.reviewingSeconds + 1 },
     none)
  else
    (s, if jsTruthyTimestamp zombie then zombie else some now)

/-- ActivityTracker zombie-revival listener (onDidChangeTextDocument with
at least one content change).  A fresh human signal (msSinceHuman < 1000)
kills the zombie without credit; otherwise, a truthy marker within the
revival window credits floor(deadTime/1000) seconds to activeSeconds and
reviewingSeconds (only when positive) and the marker is cleared. -/
def documentChangeRevival (msSinceHuman now : Int)
    (zombie : Option Int) (s : DailyStats) : DailyStats × Option Int :=
  if msSinceHuman < 1000 then
    (s, none)
  else
    if jsTruthyTimestamp zombie then
      let z := zombie.getD 0
      let deadTime := now - z
      let s1 :=
        if deadTime < zombieRevivalWindowMs then
          let secondsAdded := deadTime / 1000
          if 0 < secondsAdded then
            { s with activeSeconds := s.activeSeconds + secondsAdded
                     reviewingSeconds := s.reviewingSeconds + secondsAdded }
          else s
        else s
      (s1, none)
    else (s, zombie)

/-- ActivityTracker.debugAddMinutes. -/
def debugAddMinutes (typing reviewing : Int) (s : DailyStats) : DailyStats :=
  { s with typingSeconds := s.typingSeconds + typing * 60
           reviewingSeconds := s.reviewingSeconds + reviewing * 60
           activeSeconds := s.activeSeconds + (typing + reviewing) * 60 }

/-- ActivityTracker.populateDummyData. -/
def populateDummyActivityData (s : DailyStats) : DailyStats :=
  { s with activeSeconds := 7200, typingSeconds := 2100, reviewingSeconds := 5100 }

/-- ActivityTracker.resetForNewDay. -/
def resetForNewDay (s : DailyStats) : DailyStats :=
  { s with activeSeconds := 0, typingSeconds := 0, reviewingSeconds := 0
           humanTypedLines := 0, humanRefactoredLines := 0
           aiGeneratedLines := 0, aiEditedLines := 0
           humanChars := 0, aiChars := 0, refactorChars := 0
           slotState := { runsRemaining := 1, currentEnergy := 3, currentScore := 0
                          dailyHighScore := 0, bestAnalysis := none } }

/-- ActivityTracker.timeRatio: 50 when no typing or reviewing time is
recorded, otherwise the typing share in percent. -/
def timeRatio (s : DailyStats) : ℚ :=
  let total := s.typingSeconds + s.reviewingSeconds
  if total = 0 then 50
  else ((s.typingSeconds : ℚ) / (total : ℚ)) * 100

/-- Result of ActivityTracker.handleSnooze. -/
inductive SnoozeGuardResult where
  | success
  | tooEarly
  | staleReset
  deriving Repr, DecidableEq

/-- ActivityTracker.EARLY_BUFFER_MS. -/
def earlyBufferMs : Int := 30 * 60 * 1000

/-- ActivityTracker.LATE_BUFFER_MS. -/
def lateBufferMs : Int := 2 * 60 * 60 * 1000

/-- ActivityTracker.handleSnooze: reject TOO_EARLY more than 30 minutes
before the target, STALE_RESET more than 2 hours after it, else allow. -/
def handleSnooze (now targetBedtimeMs : Int) : SnoozeGuardResult :=
  if now < targetBedtimeMs - earlyBufferMs then .tooEarly
  else if now > targetBedtimeMs + lateBufferMs then .staleReset
  else .success

/-- One content change of a document-change event as seen by
MetricsEngine (undo/redo events are discarded before this point).
textLen is change.text.length, textLines the newline count of
change.text, deletedLineSpan is range.end.line - range.start.line, and
rangeLength is change.rangeLength. -/
structure ContentChangeEvent where
  textLen : Nat
  textLines : Nat
  deletedLineSpan : Nat
  rangeLength : Nat
  msSinceType : Int
  msSincePaste : Int
  deriving Repr, DecidableEq

/-- MetricsEngine classification of one content change (the loop body of
startMonitoring): pure deletion, safe paste, fresh human typing,
machine-origin burst (split on rangeLength), then the tiny-change
fallback. -/
def classifyChange (ev : ContentChangeEvent) (s : DailyStats) : DailyStats :=
  if ev.textLen = 0 then
    if 0 < ev.deletedLineSpan then
      { s with humanRefactoredLines := s.humanRefactoredLines + ev.deletedLineSpan }
    else s
  else if ev.msSincePaste < 100 then
    { s with refactorChars := s.refactorChars + ev.textLen
             humanRefactoredLines := s.humanRefactoredLines + ev.textLines }
  else if ev.msSinceType < 100 then
    { s with humanChars := s.humanChars + ev.textLen
             humanTypedLines := s.humanTypedLines + ev.textLines }
  else if 5 < ev.textLen then
    if 0 < ev.rangeLength then
      { s with aiChars := s.aiChars + ev.textLen
               aiEditedLines := s.aiEditedLines + ev.textLines }
    else
      { s with aiChars := s.aiChars + ev.textLen
               aiGeneratedLines := s.aiGeneratedLines + ev.textLines }
  else
    { s with humanChars := s.humanChars + ev.textLen
             humanTypedLines := s.humanTypedLines + ev.textLines }

/-- The asynchronous clipboard-match correction of MetricsEngine (len >
50 and the clipboard equals the inserted text): reverse the AI credit
and apply the safe-paste credit in one updateToday call. -/
def clipboardMatchCorrection (textLen textLines rangeLength : Nat)
    (s : DailyStats) : DailyStats :=
  let s1 := { s with aiChars := s.aiChars - textLen }
  let s2 :=
    if 0 < rangeLength then { s1 with aiEditedLines := s1.aiEditedLines - textLines }
    else { s1 with aiGeneratedLines := s1.aiGeneratedLines - textLines }
  { s2 with refactorChars := s2.refactorChars + textLen
            humanRefactoredLines := s2.humanRefactoredLines + textLines }

/-- MetricsEngine.cyborgRatio: 0 when no characters are recorded,
otherwise the AI share in percent. -/
def cyborgRatio (s : DailyStats) : ℚ :=
  let total := s.humanChars + s.aiChars
  if total = 0 then 0
  else ((s.aiChars : ℚ) / (total : ℚ)) * 100

/-- MetricsEngine.populateDummyData (it also writes the shared activity
fields). -/
def populateDummyMetricsData (s : DailyStats) : DailyStats :=
  { s with humanTypedLines := 80, humanRefactoredLines := 40
           aiGeneratedLines := 10, aiEditedLines := 5
           humanChars := 1500, aiChars := 500, refactorChars := 200
           activeSeconds := 7200, typingSeconds := 1200, reviewingSeconds := 600 }

/-- The four provenance line counters. -/
inductive ProvenanceBucket where
  | humanTyped
  | humanRefactored
  | aiGenerated
  | aiEdited
  deriving Repr, DecidableEq

/-- Projection of the line counter belonging to a bucket. -/
def lineCounter : ProvenanceBucket → DailyStats → Int
  | .humanTyped, s => s.humanTypedLines
  | .humanRefactored, s => s.humanRefactoredLines
  | .aiGenerated, s => s.aiGeneratedLines
  | .aiEdited, s => s.aiEditedLines

/-- The bucket the first-match-wins classification order selects. -/
def bucketOf (ev : ContentChangeEvent) : ProvenanceBucket :=
  if ev.textLen = 0 then .humanRefactored
  else if ev.msSincePaste < 100 then .humanRefactored
  else if ev.msSinceType < 100 then .humanTyped
  else if 5 < ev.textLen then
    (if 0 < ev.rangeLength then .aiEdited else .aiGenerated)
  else .humanTyped

/-- The line credit of an event: the deleted line span for a pure
deletion, the inserted newline count otherwise. -/
def lineCredit (ev : ContentChangeEvent) : Nat :=
  if ev.textLen = 0 then ev.deletedLineSpan else ev.textLines

/-- Deadline as the spec words it, for comparison with the source
function: the session day (the previous calendar date when the current
hour is before dayStartHour, else the current date) combined with the
configured bedtime hour and minute, plus one calendar day exactly when
the bedtime hour is numerically less than dayStartHour. -/
def specSessionDayBedtime (bedH bedM dayStartHour now : Int) : Int :=
  let sessionDay :=
    if dateGetHours now < dayStartHour then dateDayIndex now - 1 else dateDayIndex now
  let bedtimeDay := if bedH < dayStartHour then sessionDay + 1 else sessionDay
  bedtimeDay * msPerDay + bedH * msPerHour + bedM * msPerMinute

/-- Configuration with day start 4 and bedtime 01:00. -/
def bedtimeOneConfig : SchedulerConfig :=
  { bedH := 1, bedM := 0, dayStartHour := 4
    softNudgeMinutes := 30, autoSnoozeMinutes := 60 }

/-- Configuration with day start 4 and bedtime 23:00. -/
def bedtimeLateConfig : SchedulerConfig :=
  { bedH := 23, bedM := 0, dayStartHour := 4
    softNudgeMinutes := 30, autoSnoozeMinutes := 60 }

/-- C8: handleSnooze returns TOO_EARLY exactly when now is more than 30
minutes before the target, STALE_RESET exactly when now is more than 2
hours after the target, and success exactly otherwise; being a total
function it returns in all cases. -/
theorem vibertime_C8_snooze_click_guards (now target : Int) :
    (handleSnooze now target = SnoozeGuardResult.tooEarly ↔
       now < target - 30 * 60 * 1000)
    ∧ (handleSnooze now target = SnoozeGuardResult.staleReset ↔
       now > target + 2 * 60 * 60 * 1000)
    ∧ (handleSnooze now target = SnoozeGuardResult.success ↔
       (target - 30 * 60 * 1000 ≤ now ∧ now ≤ target + 2 * 60 * 60 * 1000)) := by
  unfold handleSnooze earlyBufferMs lateBufferMs
  refine ⟨?_, ?_, ?_⟩ <;> split_ifs <;> simp_all <;> omega

/-- C10: the ratio getters are total.  timeRatio is 50 when no typing or
reviewing seconds exist and otherwise 100 times the typing share;
cyborgRatio is 0 when no characters exist and otherwise 100 times the AI
share. -/
theorem vibertime_C10_ratio_getters_total (s : DailyStats) :
    (s.typingSeconds + s.reviewingSeconds = 0 → timeRatio s = 50)
    ∧ (s.typingSeconds + s.reviewingSeconds ≠ 0 →
        timeRatio s = 100 * (s.typingSeconds : ℚ) /
          ((s.typingSeconds : ℚ) + (s.reviewingSeconds : ℚ)))
    ∧ (s.humanChars + s.aiChars = 0 → cyborgRatio s = 0)
    ∧ (s.humanChars + s.aiChars ≠ 0 →
        cyborgRatio s = 100 * (s.aiChars : ℚ) /
          ((s.humanChars : ℚ) + (s.aiChars : ℚ))) := by
  unfold timeRatio cyborgRatio
  refine ⟨fun h => by simp [h], fun h => by simp [h]; ring,
    fun h => by simp [h], fun h => by simp [h]; ring⟩

/-- C10 witness at concrete records. -/
theorem vibertime_C10_ratio_getters_total_witness :
    timeRatio statsZero = 50
    ∧ cyborgRatio (populateDummyMetricsData statsZero)
        = 100 * ((populateDummyMetricsData statsZero).aiChars : ℚ) /
            (((populateDummyMetricsData statsZero).humanChars : ℚ)
              + ((populateDummyMetricsData statsZero).aiChars : ℚ)) :=
  ⟨(vibertime_C10_ratio_getters_total statsZero).1 (by decide),
   (vibertime_C10_ratio_getters_total (populateDummyMetricsData statsZero)).2.2.2
     (by decide)⟩

/-- C5: with no snooze pending, getTargetBedtimeTimestamp equals the
session date combined with the configured bedtime, plus one day exactly
when the bedtime hour is below the day-start hour; with day start 4 and
bedtime 01:00 at 10:00 the deadline is tomorrow 01:00, and with bedtime
23:00 at 03:00 it is the previous date at 23:00 with a negative diff. -/
theorem vibertime_C5_deadline_computation :
    (∀ (cfg : SchedulerConfig) (now : Int),
       getTargetBedtimeTimestamp cfg 0 now
         = specSessionDayBedtime cfg.bedH cfg.bedM cfg.dayStartHour now)
    ∧ (∀ day : Int,
        getTargetBedtimeTimestamp bedtimeOneConfig 0 (day * msPerDay + 10 * msPerHour)
          = (day + 1) * msPerDay + 1 * msPerHour)
    ∧ (∀ day : Int,
        getTargetBedtimeTimestamp bedtimeLateConfig 0 (day * msPerDay + 3 * msPerHour)
            = (day - 1) * msPerDay + 23 * msPerHour
        ∧ (day - 1) * msPerDay + 23 * msPerHour
            - (day * msPerDay + 3 * msPerHour) < 0) := by
  refine ⟨?_, ?_, ?_⟩
  · intro cfg now
    simp only [getTargetBedtimeTimestamp, specSessionDayBedtime, dateSetHoursMinutes,
      dateDayIndex, dateGetHours, msPerDay, msPerHour, msPerMinute, lt_self_iff_false,
      if_false]
    split_ifs <;> omega
  · intro day
    simp only [getTargetBedtimeTimestamp, bedtimeOneConfig, dateSetHoursMinutes,
      dateDayIndex, dateGetHours, msPerDay, msPerHour, msPerMinute, lt_self_iff_false,
      if_false]
    split_ifs <;> omega
  · intro day
    refine ⟨?_, by simp only [msPerDay, msPerHour]; omega⟩
    simp only [getTargetBedtimeTimestamp, bedtimeLateConfig, dateSetHoursMinutes,
      dateDayIndex, dateGetHours, msPerDay, msPerHour, msPerMinute, lt_self_iff_false,
      if_false]
    split_ifs <;> omega

/-- C1 (counterexample): snooze(30) at T = 1000000 sets snoozedUntil to
2800000; at now = 1000000000, long past that value, the getter still
returns 2800000 instead of the session-day bedtime 1029600000 the claim
demands. -/
theorem vibertime_C1_counterexample :
    (snooze 30 1000000 (initSchedulerState 0)).snoozedUntil = 2800000
    ∧ (2800000 : Int) < 1000000000
    ∧ getTargetBedtimeTimestamp exampleConfig 2800000 1000000000 = 2800000
    ∧ getTargetBedtimeTimestamp exampleConfig 0 1000000000 = 1029600000
    ∧ (2800000 : Int) ≠ 1029600000 := by
  refine ⟨by decide, by decide, by decide, by decide, by decide⟩

/-- C1 (amended): after snooze(m) at time T, getTargetBedtimeTimestamp
returns T + m*60000 for every query regardless of the current time and
the configured bedtime; the snooze value keeps overriding even after now
passes it, until reset() or a new snooze replaces snoozedUntil. -/
theorem vibertime_C1_snooze_overrides (cfg : SchedulerConfig) (st : SchedulerState)
    (m T now : Int) (h : 0 < T + m * msPerMinute) :
    getTargetBedtimeTimestamp cfg (snooze m T st).snoozedUntil now
      = T + m * msPerMinute := by
  simp [snooze, getTargetBedtimeTimestamp, h]

/-- C1 witness: the amended theorem at m = 30, T = 1000000, queried both
before and after the snooze deadline. -/
theorem vibertime_C1_snooze_overrides_witness :
    getTargetBedtimeTimestamp exampleConfig
        (snooze 30 1000000 (initSchedulerState 0)).snoozedUntil 999999999
      = 1000000 + 30 * msPerMinute :=
  vibertime_C1_snooze_overrides exampleConfig (initSchedulerState 0) 30 1000000
    999999999 (by decide)

/-- C2 (counterexample): at diff = -10000 the tick lies inside the
claimed firing window (-60000, -2000] with the guard clear, yet no modal
is presented: the code additionally requires |diff + 2000| < 1500. -/
theorem vibertime_C2_counterexample :
    (initSchedulerState 10000000).hardStopActive = false
    ∧ getTargetBedtimeTimestamp exampleConfig
        (initSchedulerState 10000000).snoozedUntil 10010000 - 10010000 = -10000
    ∧ ((-10000 : Int) ≤ -2000 ∧ (-10000 : Int) > -60000)
    ∧ (checkTime exampleConfig 10010000 (initSchedulerState 10000000)).2 = false := by
  refine ⟨by decide, by decide, by decide, by decide⟩

/-- C2 (amended): on a scheduler tick the blocking modal is presented
exactly when diff = targetDeadline - now lies in (-3500, -2000] (the
intersection of the (-60000, -2000] window with the |diff + 2000| < 1500
trigger) and hardStopActive is false. -/
theorem vibertime_C2_hard_stop_trigger_window (cfg : SchedulerConfig)
    (now : Int) (st : SchedulerState) :
    (checkTime cfg now st).2 = true ↔
      (-3500 < getTargetBedtimeTimestamp cfg st.snoozedUntil now - now
       ∧ getTargetBedtimeTimestamp cfg st.snoozedUntil now - now ≤ -2000
       ∧ st.hardStopActive = false) := by
  unfold checkTime triggerHardStop
  set diff := getTargetBedtimeTimestamp cfg st.snoozedUntil now - now with hdiff
  by_cases hA : diff ≤ -2000 ∧ diff > -60000 ∧ |diff + 2000| < 1500
  · rw [if_pos hA]
    rw [abs_lt] at hA
    by_cases hG : st.hardStopActive
    · simp [hG]
    · simp [hG]
      omega
  · rw [if_neg hA]
    rw [abs_lt] at hA
    simp only [Prod.snd]
    constructor
    · intro hfalse
      exact absurd hfalse (by simp)
    · rintro ⟨h1, h2, h3⟩
      exact absurd ⟨h2, by omega, by omega, by omega⟩ hA

/-- C3 (code evaluated at the failing input): the activity tick credits
a second exactly when the window is focused and msSinceInput < 30000,
the constant hardcoded in the source; with idleTimeoutSeconds configured
to 60 (60000 ms) and msSinceInput = 45000 on a focused window, the spec
counts the user active but the tick credits nothing and enters the
zombie state. -/
theorem vibertime_C3_idle_timeout_not_configurable :
    (∀ (isFocused : Bool) (msSinceInput now : Int) (zombie : Option Int)
       (s : DailyStats),
       ((activityTick isFocused msSinceInput now zombie s).1.activeSeconds
           = s.activeSeconds + 1
         ↔ (isFocused = true ∧ msSinceInput < 30000)))
    ∧ idleTimeoutSeconds (some 60) * 1000 = 60000
    ∧ (45000 : Int) < idleTimeoutSeconds (some 60) * 1000
    ∧ (activityTick true 45000 123456 none statsZero).1 = statsZero
    ∧ (activityTick true 45000 123456 none statsZero).2 = some 123456 := by
  refine ⟨?_, by decide, by decide, by decide, by decide⟩
  intro isFocused msSinceInput now zombie s
  unfold activityTick
  split_ifs with h h2 <;> simp_all

/-- C9: across ticks with diff = -1000 then diff = -3000 the hard stop
fires exactly once; while hardStopActive is true both further ticks and
direct triggerHardStop calls present nothing and leave the guard set,
and only the dialog resolution clears it. -/
theorem vibertime_C9_hard_stop_single_fire :
    ((checkTime exampleConfig 10001000 (initSchedulerState 10000000)).2 = false
      ∧ (checkTime exampleConfig 10001000 (initSchedulerState 10000000)).1
          = initSchedulerState 10000000)
    ∧ ((checkTime exampleConfig 10003000 (initSchedulerState 10000000)).2 = true
      ∧ (checkTime exampleConfig 10003000 (initSchedulerState 10000000)).1.hardStopActive
          = true)
    ∧ (∀ (cfg : SchedulerConfig) (now : Int) (st : SchedulerState),
        st.hardStopActive = true →
          (checkTime cfg now st).2 = false
          ∧ (checkTime cfg now st).1.hardStopActive = true)
    ∧ (∀ st : SchedulerState, st.hardStopActive = true →
        triggerHardStop st = (st, false))
    ∧ (∀ (cfg : SchedulerConfig) (choice : HardStopChoice) (now : Int)
        (st : SchedulerState),
        (hardStopResolve cfg choice now st).hardStopActive = false) := by
  refine ⟨⟨by decide, by decide⟩, ⟨by decide, by decide⟩, ?_, ?_, ?_⟩
  · intro cfg now st h
    simp only [checkTime, triggerHardStop]
    split_ifs <;> simp_all
  · intro st h
    unfold triggerHardStop
    simp [h]
  · intro cfg choice now st
    cases choice <;> simp [hardStopResolve, snooze]

/-- C9 witness: a tick taken while the guard is set presents nothing and
keeps the guard. -/
theorem vibertime_C9_hard_stop_single_fire_witness :
    (checkTime exampleConfig 10004000
        { snoozedUntil := 10000000, softNudgeFired := false, hardStopActive := true }).2
      = false
    ∧ (checkTime exampleConfig 10004000
        { snoozedUntil := 10000000, softNudgeFired := false,
          hardStopActive := true }).1.hardStopActive = true :=
  vibertime_C9_hard_stop_single_fire.2.2.1 exampleConfig 10004000
    { snoozedUntil := 10000000, softNudgeFired := false, hardStopActive := true } rfl

/-- C4 (counterexample): an edit 500 ms after the last human keystroke
is machine-origin by the claimed 100 ms window, arrives d = 5000 ms
after the zombie marker T = 1000000, and should credit floor(5000/1000)
= 5 seconds; the code, whose revival listener uses a 1000 ms human
window, treats it as human input and credits nothing. -/
theorem vibertime_C4_counterexample :
    ¬ ((500 : Int) < 100)
    ∧ (5000 : Int) < 300000
    ∧ (5000 : Int) / 1000 = 5
    ∧ (documentChangeRevival 500 (1000000 + 5000) (some 1000000) statsZero).1.activeSeconds
        = statsZero.activeSeconds
    ∧ (documentChangeRevival 500 (1000000 + 5000) (some 1000000) statsZero).1.reviewingSeconds
        = statsZero.reviewingSeconds
    ∧ statsZero.activeSeconds ≠ statsZero.activeSeconds + 5 := by
  refine ⟨by decide, by decide, by decide, by decide, by decide, by decide⟩

/-- C4 (amended): the revival listener classifies an event as
machine-origin when msSinceHuman is at least 1000 ms (not the 100 ms
window of the provenance classifier).  For such an event at T + d with
the zombie marker at T > 0: when d < 300000 it credits floor(d/1000)
seconds to both activeSeconds and reviewingSeconds, when d ≥ 300000 it
credits nothing, and the marker is cleared in every case, so no revival
credit leaks past the window. -/
theorem vibertime_C4_zombie_revival_window (msSinceHuman T d : Int)
    (s : DailyStats) (hm : 1000 ≤ msSinceHuman) (hT : 0 < T) (hd : 0 ≤ d) :
    (d < 300000 →
       documentChangeRevival msSinceHuman (T + d) (some T) s
         = ({ s with activeSeconds := s.activeSeconds + d / 1000
                     reviewingSeconds := s.reviewingSeconds + d / 1000 }, none))
    ∧ (300000 ≤ d →
       documentChangeRevival msSinceHuman (T + d) (some T) s = (s, none)) := by
  have h1 : ¬ msSinceHuman < 1000 := by omega
  have h2 : T ≠ 0 := by omega
  constructor
  · intro h3
    by_cases h4 : 0 < d / 1000
    · simp [documentChangeRevival, jsTruthyTimestamp, zombieRevivalWindowMs,
        h1, h2, h3, h4]
    · have h5 : d / 1000 = 0 := by omega
      simp [documentChangeRevival, jsTruthyTimestamp, zombieRevivalWindowMs,
        h1, h2, h3, h4, h5]
  · intro h3
    have h4 : ¬ d < 300000 := by omega
    simp [documentChangeRevival, jsTruthyTimestamp, zombieRevivalWindowMs,
      h1, h2, h4]

/-- C4 witness: a machine-origin edit (msSinceHuman = 1500) arriving
2500 ms into the zombie window credits floor(2500/1000) = 2 seconds. -/
theorem vibertime_C4_zombie_revival_window_witness :
    documentChangeRevival 1500 (1000 + 2500) (some 1000) statsZero
      = ({ statsZero with
            activeSeconds := statsZero.activeSeconds + (2500 : Int) / 1000
            reviewingSeconds := statsZero.reviewingSeconds + (2500 : Int) / 1000 },
         none) :=
  (vibertime_C4_zombie_revival_window 1500 1000 2500 statsZero (by decide)
    (by decide) (by decide)).1 (by decide)

/-- C6: each document change event increments exactly the line counter
of the bucket selected by the first-match-wins order (pure deletion,
safe paste, fresh keystroke, machine-origin split on rangeLength,
tiny-change fallback) by the event line credit, leaving the other three
untouched; the asynchronous clipboard-match correction decrements the
matching AI counter and increments humanRefactoredLines as one unit,
preserving the four-counter sum. -/
theorem vibertime_C6_provenance_exclusive :
    (∀ (ev : ContentChangeEvent) (s : DailyStats),
       lineCounter (bucketOf ev) (classifyChange ev s)
           = lineCounter (bucketOf ev) s + lineCredit ev
       ∧ (∀ b : ProvenanceBucket, b ≠ bucketOf ev →
           lineCounter b (classifyChange ev s) = lineCounter b s))
    ∧ (∀ (textLen textLines rangeLength : Nat) (s : DailyStats),
        (clipboardMatchCorrection textLen textLines rangeLength s).humanRefactoredLines
            = s.humanRefactoredLines + textLines
        ∧ (clipboardMatchCorrection textLen textLines rangeLength s).humanTypedLines
            = s.humanTypedLines
        ∧ (0 < rangeLength →
            (clipboardMatchCorrection textLen textLines rangeLength s).aiEditedLines
                = s.aiEditedLines - textLines
            ∧ (clipboardMatchCorrection textLen textLines rangeLength s).aiGeneratedLines
                = s.aiGeneratedLines)
        ∧ (rangeLength = 0 →
            (clipboardMatchCorrection textLen textLines rangeLength s).aiGeneratedLines
                = s.aiGeneratedLines - textLines
            ∧ (clipboardMatchCorrection textLen textLines rangeLength s).aiEditedLines
                = s.aiEditedLines)
        ∧ (clipboardMatchCorrection textLen textLines rangeLength s).humanTypedLines
            + (clipboardMatchCorrection textLen textLines rangeLength s).humanRefactoredLines
            + (clipboardMatchCorrection textLen textLines rangeLength s).aiGeneratedLines
            + (clipboardMatchCorrection textLen textLines rangeLength s).aiEditedLines
            = s.humanTypedLines + s.humanRefactoredLines
              + s.aiGeneratedLines + s.aiEditedLines) := by
  constructor
  · intro ev s
    constructor
    · unfold classifyChange bucketOf lineCredit
      split_ifs <;> simp_all [lineCounter]
    · intro b hb
      unfold classifyChange
      unfold bucketOf at hb
      split_ifs at hb ⊢ <;> cases b <;> simp_all [lineCounter]
  · intro textLen textLines rangeLength s
    unfold clipboardMatchCorrection
    split_ifs with h <;>
      refine ⟨by simp, by simp, ?_, ?_, by simp; ring⟩ <;> intro h2 <;> simp_all

/-- A machine-origin pure-insertion sample event: 20 characters, 2
newlines, no prior range, both timing signals stale. -/
def sampleMachineEvent : ContentChangeEvent :=
  { textLen := 20, textLines := 2, deletedLineSpan := 0, rangeLength := 0
    msSinceType := 5000, msSincePaste := 5000 }

/-- C6 witness: the sample machine-origin event leaves humanTypedLines
untouched, and a clipboard correction on a replacement decrements
aiEditedLines. -/
theorem vibertime_C6_provenance_exclusive_witness :
    lineCounter ProvenanceBucket.humanTyped (classifyChange sampleMachineEvent statsZero)
        = lineCounter ProvenanceBucket.humanTyped statsZero
    ∧ (clipboardMatchCorrection 60 2 3 statsZero).aiEditedLines
        = statsZero.aiEditedLines - 2 :=
  ⟨(vibertime_C6_provenance_exclusive.1 sampleMachineEvent statsZero).2
      ProvenanceBucket.humanTyped (by decide),
   ((vibertime_C6_provenance_exclusive.2 60 2 3 statsZero).2.2.1 (by decide)).1⟩

/-- The activity-ledger invariant of DailyStats. -/
def activityInvariant (s : DailyStats) : Prop :=
  s.typingSeconds + s.reviewingSeconds ≤ s.activeSeconds

/-- C7: every operation touching the activity ledger preserves
typingSeconds + reviewingSeconds ≤ activeSeconds; the tick and the
zombie revival additionally preserve exact equality. -/
theorem vibertime_C7_activity_ledger_invariant :
    (∀ (isFocused : Bool) (ms now : Int) (z : Option Int) (s : DailyStats),
       (activityInvariant s → activityInvariant (activityTick isFocused ms now z s).1)
       ∧ (s.typingSeconds + s.reviewingSeconds = s.activeSeconds →
            (activityTick isFocused ms now z s).1.typingSeconds
              + (activityTick isFocused ms now z s).1.reviewingSeconds
              = (activityTick isFocused ms now z s).1.activeSeconds))
    ∧ (∀ (msH now : Int) (z : Option Int) (s : DailyStats),
       (activityInvariant s → activityInvariant (documentChangeRevival msH now z s).1)
       ∧ (s.typingSeconds + s.reviewingSeconds = s.activeSeconds →
            (documentChangeRevival msH now z s).1.typingSeconds
              + (documentChangeRevival msH now z s).1.reviewingSeconds
              = (documentChangeRevival msH now z s).1.activeSeconds))
    ∧ (∀ (typing reviewing : Int) (s : DailyStats),
        activityInvariant s → activityInvariant (debugAddMinutes typing reviewing s))
    ∧ (∀ s : DailyStats, activityInvariant (resetForNewDay s))
    ∧ (∀ s : DailyStats, activityInvariant (populateDummyActivityData s))
    ∧ (∀ s : DailyStats, activityInvariant (populateDummyMetricsData s)) := by
  refine ⟨?_, ?_, ?_, ?_, ?_, ?_⟩
  · intro isFocused ms now z s
    unfold activityInvariant activityTick
    constructor <;> (intro h; split_ifs <;> simp_all <;> omega)
  · intro msH now z s
    simp only [activityInvariant, documentChangeRevival]
    refine ⟨fun h => ?_, fun h => ?_⟩ <;> split_ifs <;> simp_all <;> omega
  · intro typing reviewing s
    unfold activityInvariant debugAddMinutes
    intro h
    simp only []
    omega
  · intro s
    unfold activityInvariant resetForNewDay
    simp
  · intro s
    unfold activityInvariant populateDummyActivityData
    simp
  · intro s
    unfold activityInvariant populateDummyMetricsData
    simp

/-- C7 witness: one active typing tick taken from the all-zero ledger
keeps the invariant. -/
theorem vibertime_C7_activity_ledger_invariant_witness :
    activityInvariant (activityTick true 500 0 none statsZero).1 :=
  (vibertime_C7_activity_ledger_invariant.1 true 500 0 none statsZero).1
    (by simp [activityInvariant, statsZero])
